import Mathlib

/-!
Verification of the track-or-detect orchestration core of the
HandLandmarkerGraph (mediapipe/tasks/cc/vision/hand_landmarker/
hand_landmarker_graph.cc).

The file in src wires calculator nodes together; the calculators
themselves (PreviousLoopbackCalculator, NormalizedRectVectorHasMinSize,
GateCalculator/DisallowIf, HandAssociationCalculator,
ClipNormalizedRectVectorSizeCalculator, HandDetectorGraph,
HandLandmarkerSubgraph) are not part of the repository snapshot, so
their behaviour is modelled from the specification, while the wiring
(which stage feeds which, the parameters of each stage, the back edge)
follows BuildHandLandmarkerGraph. The post-processing loop of
HandLandmarkerGraph::GetConfig is embedded directly from the source.
-/

namespace HandLandmarker

/-- Normalized rectangle region (NormalizedRect stream payload):
center, size, rotation and an optional confidence score.
Coordinates are modelled as rationals. -/
structure Region where
  xCenter : ℚ
  yCenter : ℚ
  width : ℚ
  height : ℚ
  rotation : ℚ
  score : Option ℚ
deriving DecidableEq

/-- A single landmark point. -/
structure Landmark where
  x : ℚ
  y : ℚ
  z : ℚ
deriving DecidableEq

/-- A classification entry (handedness). -/
structure Classification where
  index : ℤ
  score : ℚ
  label : String
deriving DecidableEq

/-- A detection-only output entry (PALM_DETECTIONS payload). -/
structure Detection where
  score : ℚ
  boundingBox : Region
deriving DecidableEq

/-- Opaque image payload (IMAGE stream); the orchestration only passes
it through, so a bare identifier suffices. -/
structure Image where
  data : ℕ
deriving DecidableEq

/-- Configuration surface of the orchestration: max_num_hands
(num_hands of the hand detector options, the quota max_entities) and
min_tracking_confidence (the association similarity threshold), as read
in BuildHandLandmarkerGraph lines 200 and 227. -/
structure Config where
  maxEntities : ℤ
  threshold : ℚ
deriving DecidableEq

/-- Modelled from the spec: HandAssociationCalculator (source not under
src/). One step of the greedy scan: remove from the fresh list the
first element whose similarity with p reaches the threshold; leave the
list unchanged when no element qualifies. -/
def consumeFirst (sim : Region → Region → ℚ) (thr : ℚ) (p : Region) :
    List Region → List Region
  | [] => []
  | f :: fs => if thr ≤ sim p f then fs else f :: consumeFirst sim thr p fs

/-- Modelled from the spec: the fresh elements still unconsumed after
every element of previous has performed its greedy scan. -/
def remainingFresh (sim : Region → Region → ℚ) (thr : ℚ) :
    List Region → List Region → List Region
  | [], fresh => fresh
  | p :: ps, fresh => remainingFresh sim thr ps (consumeFirst sim thr p fresh)

/-- Modelled from the spec: HandAssociationCalculator output. Every
element of previous is kept in order (the tracked form is
authoritative, its fresh duplicate is consumed), then the unconsumed
fresh elements are appended in their original order. -/
def associate (sim : Region → Region → ℚ) (thr : ℚ)
    (previous fresh : List Region) : List Region :=
  previous ++ remainingFresh sim thr previous fresh

theorem consumeFirst_sublist (sim : Region → Region → ℚ) (thr : ℚ)
    (p : Region) (l : List Region) :
    List.Sublist (consumeFirst sim thr p l) l := by
  induction l with
  | nil => simp [consumeFirst]
  | cons f fs ih =>
    by_cases h : thr ≤ sim p f
    · rw [consumeFirst, if_pos h]
      exact List.sublist_cons_self f fs
    · rw [consumeFirst, if_neg h]
      exact List.Sublist.cons₂ f ih

theorem remainingFresh_sublist (sim : Region → Region → ℚ) (thr : ℚ)
    (prev fresh : List Region) :
    List.Sublist (remainingFresh sim thr prev fresh) fresh := by
  induction prev generalizing fresh with
  | nil => simp [remainingFresh]
  | cons p ps ih =>
    exact (ih (consumeFirst sim thr p fresh)).trans
      (consumeFirst_sublist sim thr p fresh)

theorem remainingFresh_nil (sim : Region → Region → ℚ) (thr : ℚ)
    (prev : List Region) : remainingFresh sim thr prev [] = [] := by
  induction prev with
  | nil => rfl
  | cons p ps ih => simp [remainingFresh, consumeFirst, ih]

theorem associate_length_le (sim : Region → Region → ℚ) (thr : ℚ)
    (prev fresh : List Region) :
    (associate sim thr prev fresh).length ≤ prev.length + fresh.length := by
  have h := (remainingFresh_sublist sim thr prev fresh).length_le
  simpa [associate] using Nat.add_le_add_left h prev.length

/-- Modelled from the spec: the complete per-frame output of the
external HandDetectorGraph (source not under src/): the hand bounding
rects consumed by the Associator, plus the detection-only outputs
PALM_RECTS and PALM_DETECTIONS. -/
structure DetectorOutput where
  handRects : List Region
  palmRects : List Region
  palmDetections : List Detection
deriving DecidableEq

/-- The external detector collaborator: per image, its full output. -/
def Detector : Type := Image → DetectorOutput

/-- The per-entity result of the external extractor
(HandLandmarkerSubgraph): landmarks, optional world landmarks,
handedness classification and the predicted region for the next
cycle (HAND_RECT_NEXT_FRAME). -/
structure ExtractResult where
  landmarks : List Landmark
  worldLandmarks : Option (List Landmark)
  handedness : Classification
  predictedRegion : Region
deriving DecidableEq

/-- The external extractor collaborator: per image and region list,
an index-aligned list with zero or one result per input region
(none marks a failed extraction for that region). -/
def Extractor : Type := Image → List Region → List (Option ExtractResult)

/-- SufficiencyGate (NormalizedRectVectorHasMinSizeCalculator with
min_size = max_num_hands, wiring lines 208-213). Modelled from the
spec: true exactly when the previous-state count reaches the quota. -/
def sufficiencyGate (maxEntities : ℤ) (state : List Region) : Bool :=
  decide (maxEntities ≤ (state.length : ℤ))

/-- ConditionalDetector (DisallowIf valve, wiring lines 215-223).
Modelled from the spec: none when the gate reports sufficient (the
detector is not invoked at all), otherwise the detector output. -/
def freshDetections (cfg : Config) (det : Detector) (state : List Region)
    (img : Image) : Option DetectorOutput :=
  if sufficiencyGate cfg.maxEntities state then none else some (det img)

/-- The region list the Associator produces this cycle: previous state
merged with the fresh hand rects, an absent detector invocation
contributing the empty list (wiring lines 225-232). -/
def mergedRegions (cfg : Config) (sim : Region → Region → ℚ)
    (det : Detector) (state : List Region) (img : Image) : List Region :=
  associate sim cfg.threshold state
    (match freshDetections cfg det state img with
     | none => []
     | some o => o.handRects)

/-- QuotaClipper (ClipNormalizedRectVectorSizeCalculator with
max_vec_size = max_num_hands, wiring lines 234-239). Modelled from the
spec: keep the first max_vec_size elements. -/
def clipRegions (maxVecSize : ℤ) (l : List Region) : List Region :=
  l.take maxVecSize.toNat

/-- ExtractionDispatcher: run the extractor once on the clipped list
and keep the successful entries; the take encodes the index alignment
of the extractor contract (at most one entry per input region). -/
def dispatchExtraction (ex : Extractor) (img : Image)
    (regions : List Region) : List ExtractResult :=
  ((ex img regions).take regions.length).filterMap id

/-- The assembled per-cycle result (OutputAssembler,
HandLandmarkerOutputs): the entity list, the predicted regions fed
back, the detector invocation outcome with its detection-only outputs,
and the passthrough image. -/
structure CycleOutput where
  entities : List ExtractResult
  handRectsNextFrame : List Region
  detectorResult : Option DetectorOutput
  palmRects : List Region
  palmDetections : List Detection
  image : Image
deriving DecidableEq

/-- One cycle of the orchestration, following the wiring of
BuildHandLandmarkerGraph: gate, conditional detector, association,
clipping, extraction, feedback write and output assembly. Returns the
assembled output together with the new PreviousStateRegister
content. -/
def runCycle (cfg : Config) (sim : Region → Region → ℚ) (det : Detector)
    (ex : Extractor) (state : List Region) (img : Image) :
    CycleOutput × List Region :=
  let freshOut := freshDetections cfg det state img
  let merged := mergedRegions cfg sim det state img
  let clipped := clipRegions cfg.maxEntities merged
  let entities := dispatchExtraction ex img clipped
  let newState := entities.map (·.predictedRegion)
  ({ entities := entities
     handRectsNextFrame := newState
     detectorResult := freshOut
     palmRects := match freshOut with | none => [] | some o => o.palmRects
     palmDetections :=
       match freshOut with | none => [] | some o => o.palmDetections
     image := img }, newState)

/-- PreviousStateRegister content observed at the start of cycle n:
empty before the first cycle, thereafter the feedback written by the
previous cycle (back edge, wiring lines 203-206 and 251-252). -/
def stateTrace (cfg : Config) (sim : Region → Region → ℚ) (det : Detector)
    (ex : Extractor) (frames : ℕ → Image) : ℕ → List Region
  | 0 => []
  | n + 1 =>
      (runCycle cfg sim det ex (stateTrace cfg sim det ex frames n)
        (frames n)).2

/-- The assembled output of cycle n. -/
def outputAt (cfg : Config) (sim : Region → Region → ℚ) (det : Detector)
    (ex : Extractor) (frames : ℕ → Image) (n : ℕ) : CycleOutput :=
  (runCycle cfg sim det ex (stateTrace cfg sim det ex frames n)
    (frames n)).1

/-- The predicted regions written by FeedbackWriter during cycle n. -/
def writeAt (cfg : Config) (sim : Region → Region → ℚ) (det : Detector)
    (ex : Extractor) (frames : ℕ → Image) (n : ℕ) : List Region :=
  (runCycle cfg sim det ex (stateTrace cfg sim det ex frames n)
    (frames n)).2

/-- The register content PreviousStateRegister.get() observes in
cycle n. -/
def readAt (cfg : Config) (sim : Region → Region → ℚ) (det : Detector)
    (ex : Extractor) (frames : ℕ → Image) (n : ℕ) : List Region :=
  stateTrace cfg sim det ex frames n

/-- Modelled from the spec: the fatal configuration errors raised at
construction (validation code not under src/). -/
inductive ConfigError where
  | invalidMaxEntities
  | invalidThreshold
deriving DecidableEq

/-- Modelled from the spec: construction-time validation of the
configuration surface — max_entities must be a positive integer and
the similarity threshold must lie in the interval from 0 to 1. -/
def validateConfig (cfg : Config) : Except ConfigError Config :=
  if cfg.maxEntities ≤ 0 then Except.error ConfigError.invalidMaxEntities
  else if cfg.threshold < 0 ∨ 1 < cfg.threshold then
    Except.error ConfigError.invalidThreshold
  else Except.ok cfg

/-- The constructed orchestration: just the validated configuration;
per-cycle processing (runCycle) performs no validation of its own. -/
structure Orchestrator where
  cfg : Config
deriving DecidableEq

/-- Modelled from the spec: construction validates once and fails fast
before any cycle executes. -/
def construct (cfg : Config) : Except ConfigError Orchestrator :=
  (validateConfig cfg).map Orchestrator.mk

/-- An InputStreamInfo entry of a CalculatorGraphConfig node. -/
structure InputStreamInfo where
  tagIndex : String
  backEdge : Bool
deriving DecidableEq

/-- A CalculatorGraphConfig node, restricted to the fields the
GetConfig post-processing loop touches. -/
structure Node where
  calculator : String
  inputStreamInfo : List InputStreamInfo
deriving DecidableEq

/-- The calculator name the GetConfig loop searches for
(kPreviousLoopbackCalculatorName, line 67). -/
def kPreviousLoopbackCalculatorName : String := "PreviousLoopbackCalculator"

/-- The marked form of a node: add_input_stream_info appends an entry
with tag_index LOOP and back_edge true (lines 181-183). -/
def markNode (n : Node) : Node :=
  { n with inputStreamInfo :=
      n.inputStreamInfo ++ [{ tagIndex := "LOOP", backEdge := true }] }

/-- The post-processing loop of HandLandmarkerGraph::GetConfig
(lines 179-186): scan the nodes in order, mark the first
PreviousLoopbackCalculator node and stop. -/
def markLoopBackEdge : List Node → List Node
  | [] => []
  | n :: ns =>
      if n.calculator = kPreviousLoopbackCalculatorName then
        markNode n :: ns
      else
        n :: markLoopBackEdge ns

theorem dispatchExtraction_length_le (ex : Extractor) (img : Image)
    (regions : List Region) :
    (dispatchExtraction ex img regions).length ≤ regions.length := by
  calc (dispatchExtraction ex img regions).length
      ≤ ((ex img regions).take regions.length).length :=
        List.length_filterMap_le id _
    _ ≤ regions.length := List.length_take_le _ _

theorem clipRegions_length_le (m : ℤ) (l : List Region) :
    (clipRegions m l).length ≤ m.toNat :=
  List.length_take_le _ _

theorem runCycle_entities_length_le (cfg : Config)
    (sim : Region → Region → ℚ) (det : Detector) (ex : Extractor)
    (state : List Region) (img : Image) :
    (runCycle cfg sim det ex state img).1.entities.length ≤
      cfg.maxEntities.toNat :=
  (dispatchExtraction_length_le ex img _).trans (clipRegions_length_le _ _)

theorem runCycle_newState_length_le (cfg : Config)
    (sim : Region → Region → ℚ) (det : Detector) (ex : Extractor)
    (state : List Region) (img : Image) :
    (runCycle cfg sim det ex state img).2.length ≤ cfg.maxEntities.toNat := by
  have h := runCycle_entities_length_le cfg sim det ex state img
  simpa [runCycle, dispatchExtraction, clipRegions] using h

theorem gate_eq_true_of_le (cfg : Config) (state : List Region)
    (h : cfg.maxEntities ≤ (state.length : ℤ)) :
    sufficiencyGate cfg.maxEntities state = true := by
  simp [sufficiencyGate, h]

theorem freshDetections_eq_none (cfg : Config) (det : Detector)
    (state : List Region) (img : Image)
    (h : cfg.maxEntities ≤ (state.length : ℤ)) :
    freshDetections cfg det state img = none := by
  simp [freshDetections, gate_eq_true_of_le cfg state h]

/-- C1: when the previous-state count reaches max_entities, the
SufficiencyGate reports sufficient and the detector contributes nothing
at all (none, as opposed to an empty-but-computed result); when the
count is below max_entities, the detector is invoked on the frame. -/
theorem c1_gate_controls_detector (cfg : Config)
    (sim : Region → Region → ℚ) (det : Detector) (ex : Extractor)
    (state : List Region) (img : Image) :
    (cfg.maxEntities ≤ (state.length : ℤ) →
      sufficiencyGate cfg.maxEntities state = true ∧
      (runCycle cfg sim det ex state img).1.detectorResult = none) ∧
    ((state.length : ℤ) < cfg.maxEntities →
      sufficiencyGate cfg.maxEntities state = false ∧
      (runCycle cfg sim det ex state img).1.detectorResult =
        some (det img)) := by
  constructor
  · intro h
    refine ⟨gate_eq_true_of_le cfg state h, ?_⟩
    simp [runCycle, freshDetections_eq_none cfg det state img h]
  · intro h
    have hg : sufficiencyGate cfg.maxEntities state = false := by
      simp [sufficiencyGate]
      exact h
    refine ⟨hg, ?_⟩
    simp [runCycle, freshDetections, hg]

/-- C1 witness: with max_entities 1 and one tracked region the gate is
sufficient and the detector result is none. -/
theorem c1_gate_controls_detector_witness :
    sufficiencyGate (1 : ℤ) [⟨0, 0, 0, 0, 0, none⟩] = true ∧
    (runCycle ⟨1, 0⟩ (fun _ _ => 0) (fun _ => ⟨[], [], []⟩)
        (fun _ _ => []) [⟨0, 0, 0, 0, 0, none⟩] ⟨0⟩).1.detectorResult =
      none :=
  (c1_gate_controls_detector ⟨1, 0⟩ (fun _ _ => 0) (fun _ => ⟨[], [], []⟩)
    (fun _ _ => []) [⟨0, 0, 0, 0, 0, none⟩] ⟨0⟩).1 (by decide)

/-- C2: the Associator is the greedy first-match algorithm: the empty
previous list yields fresh; each previous element is kept in front
while its first matching fresh element is consumed; the unconsumed
fresh elements form a sublist appended behind previous; counts add up
(every input region appears through its own kept or absorbed copy) and
the output length is bounded by the sum of the input lengths. -/
theorem c2_associator_greedy (sim : Region → Region → ℚ) (thr : ℚ)
    (h0 : 0 ≤ thr) (h1 : thr ≤ 1) (prev fresh : List Region) :
    associate sim thr [] fresh = fresh ∧
    (∀ p ps rest, associate sim thr (p :: ps) rest =
        p :: associate sim thr ps (consumeFirst sim thr p rest)) ∧
    (∀ p f fs, consumeFirst sim thr p (f :: fs) =
        if thr ≤ sim p f then fs else f :: consumeFirst sim thr p fs) ∧
    associate sim thr prev fresh =
      prev ++ remainingFresh sim thr prev fresh ∧
    List.Sublist (remainingFresh sim thr prev fresh) fresh ∧
    (∀ x, (associate sim thr prev fresh).count x =
        prev.count x + (remainingFresh sim thr prev fresh).count x) ∧
    (associate sim thr prev fresh).length ≤ prev.length + fresh.length := by
  have _ := h0
  have _ := h1
  refine ⟨by simp [associate, remainingFresh], ?_, ?_, rfl,
    remainingFresh_sublist sim thr prev fresh, ?_,
    associate_length_le sim thr prev fresh⟩
  · intro p ps rest
    simp [associate, remainingFresh]
  · intro p f fs
    rfl
  · intro x
    simp [associate, List.count_append]

/-- C2 witness: a matching fresh element is absorbed by the previous
element at threshold one half. -/
theorem c2_associator_greedy_witness :
    associate (fun _ _ => (1 : ℚ)) (1 / 2) []
        [⟨0, 0, 0, 0, 0, none⟩] = [⟨0, 0, 0, 0, 0, none⟩] :=
  (c2_associator_greedy (fun _ _ => (1 : ℚ)) (1 / 2) (by norm_num)
    (by norm_num) [] [⟨0, 0, 0, 0, 0, none⟩]).1

/-- C3: with a positive quota, every cycle outputs at most max_entities
entities and the PreviousStateRegister content never exceeds
max_entities. -/
theorem c3_quota_invariant (cfg : Config) (sim : Region → Region → ℚ)
    (det : Detector) (ex : Extractor) (frames : ℕ → Image)
    (hpos : 0 < cfg.maxEntities) (n : ℕ) :
    ((outputAt cfg sim det ex frames n).entities.length : ℤ) ≤
      cfg.maxEntities ∧
    ((stateTrace cfg sim det ex frames n).length : ℤ) ≤ cfg.maxEntities := by
  have htn : (cfg.maxEntities.toNat : ℤ) = cfg.maxEntities :=
    Int.toNat_of_nonneg hpos.le
  have hout : ∀ m, ((outputAt cfg sim det ex frames m).entities.length : ℤ) ≤
      cfg.maxEntities := by
    intro m
    have h := runCycle_entities_length_le cfg sim det ex
      (stateTrace cfg sim det ex frames m) (frames m)
    calc ((outputAt cfg sim det ex frames m).entities.length : ℤ)
        ≤ (cfg.maxEntities.toNat : ℤ) := by exact_mod_cast h
      _ = cfg.maxEntities := htn
  refine ⟨hout n, ?_⟩
  cases n with
  | zero => simpa [stateTrace] using hpos.le
  | succ m =>
    have h := runCycle_newState_length_le cfg sim det ex
      (stateTrace cfg sim det ex frames m) (frames m)
    calc ((stateTrace cfg sim det ex frames (m + 1)).length : ℤ)
        ≤ (cfg.maxEntities.toNat : ℤ) := by
          simpa [stateTrace] using (Int.ofNat_le.mpr h)
      _ = cfg.maxEntities := htn

/-- C3 witness: quota 1, trivial collaborators, cycle 0. -/
theorem c3_quota_invariant_witness :
    ((outputAt ⟨1, 0⟩ (fun _ _ => 0) (fun _ => ⟨[], [], []⟩)
        (fun _ _ => []) (fun _ => ⟨0⟩) 0).entities.length : ℤ) ≤ 1 ∧
    ((stateTrace ⟨1, 0⟩ (fun _ _ => 0) (fun _ => ⟨[], [], []⟩)
        (fun _ _ => []) (fun _ => ⟨0⟩) 0).length : ℤ) ≤ 1 :=
  c3_quota_invariant ⟨1, 0⟩ (fun _ _ => 0) (fun _ => ⟨[], [], []⟩)
    (fun _ _ => []) (fun _ => ⟨0⟩) (by decide) 0

/-- C4: the register is empty before the first cycle; the value read
in cycle n+1 is exactly the value written in cycle n; the write of
cycle n is a function of the value read in that same cycle; and the
value read in cycle n depends only on the frames before n, so the
write driven by frame n is never observed within cycle n itself. -/
theorem c4_one_cycle_lag (cfg : Config) (sim : Region → Region → ℚ)
    (det : Detector) (ex : Extractor) (frames : ℕ → Image) :
    readAt cfg sim det ex frames 0 = [] ∧
    (∀ n, readAt cfg sim det ex frames (n + 1) =
      writeAt cfg sim det ex frames n) ∧
    (∀ n, writeAt cfg sim det ex frames n =
      (runCycle cfg sim det ex (readAt cfg sim det ex frames n)
        (frames n)).2) ∧
    (∀ n (frames2 : ℕ → Image), (∀ k, k < n → frames k = frames2 k) →
      readAt cfg sim det ex frames n = readAt cfg sim det ex frames2 n) := by
  refine ⟨rfl, fun n => rfl, fun n => rfl, ?_⟩
  intro n
  induction n with
  | zero => intro frames2 _; rfl
  | succ m ih =>
    intro frames2 h
    have hm : readAt cfg sim det ex frames m =
        readAt cfg sim det ex frames2 m :=
      ih frames2 (fun k hk => h k (hk.trans (Nat.lt_succ_self m)))
    have hf : frames m = frames2 m := h m (Nat.lt_succ_self m)
    show (runCycle cfg sim det ex (stateTrace cfg sim det ex frames m)
        (frames m)).2 =
      (runCycle cfg sim det ex (stateTrace cfg sim det ex frames2 m)
        (frames2 m)).2
    rw [show stateTrace cfg sim det ex frames m =
        stateTrace cfg sim det ex frames2 m from hm, hf]

/-- C4 witness: two frame sequences agreeing on frame 0 yield the same
register content at cycle 1. -/
theorem c4_one_cycle_lag_witness :
    readAt ⟨1, 0⟩ (fun _ _ => 0) (fun _ => ⟨[], [], []⟩) (fun _ _ => [])
        (fun _ => ⟨0⟩) 1 =
      readAt ⟨1, 0⟩ (fun _ _ => 0) (fun _ => ⟨[], [], []⟩) (fun _ _ => [])
        (fun k => ⟨k⟩) 1 :=
  (c4_one_cycle_lag ⟨1, 0⟩ (fun _ _ => 0) (fun _ => ⟨[], [], []⟩)
    (fun _ _ => []) (fun _ => ⟨0⟩)).2.2.2 1 (fun k => ⟨k⟩)
    (by intro k hk; interval_cases k; rfl)

/-- C5: construction fails fast with the matching ConfigError when
max_entities is not positive or the threshold lies outside the unit
interval, and succeeds on valid values; runCycle itself carries no
validation (it is a total function on any configuration). -/
theorem c5_config_validation (cfg : Config) :
    (cfg.maxEntities ≤ 0 →
      construct cfg = Except.error ConfigError.invalidMaxEntities) ∧
    (0 < cfg.maxEntities → (cfg.threshold < 0 ∨ 1 < cfg.threshold) →
      construct cfg = Except.error ConfigError.invalidThreshold) ∧
    (0 < cfg.maxEntities → 0 ≤ cfg.threshold → cfg.threshold ≤ 1 →
      construct cfg = Except.ok ⟨cfg⟩) := by
  refine ⟨?_, ?_, ?_⟩
  · intro h
    simp [construct, validateConfig, h, Except.map]
  · intro hpos hbad
    rw [construct, validateConfig, if_neg (by omega), if_pos hbad]
    rfl
  · intro hpos h0 h1
    rw [construct, validateConfig, if_neg (by omega),
      if_neg (by push_neg; exact ⟨h0, h1⟩)]
    rfl

/-- C5 witness: max_entities 0 is rejected at construction. -/
theorem c5_config_validation_witness :
    construct ⟨0, 1/2⟩ = Except.error ConfigError.invalidMaxEntities :=
  (c5_config_validation ⟨0, 1/2⟩).1 (by decide)

/-- C6: associating any previous list with an empty fresh list yields
the previous list unchanged, and a cycle whose gate skipped the
detector hands the Associator exactly the empty fresh list. -/
theorem c6_identity_law (cfg : Config) (sim : Region → Region → ℚ)
    (det : Detector) (state : List Region) (img : Image)
    (P : List Region) (thr : ℚ) :
    associate sim thr P [] = P ∧
    (cfg.maxEntities ≤ (state.length : ℤ) →
      mergedRegions cfg sim det state img =
        associate sim cfg.threshold state []) := by
  refine ⟨by simp [associate, remainingFresh_nil], ?_⟩
  intro h
  rw [mergedRegions, freshDetections_eq_none cfg det state img h]

/-- C6 witness: a gate-sufficient cycle merges to the previous state
itself. -/
theorem c6_identity_law_witness :
    associate (fun _ _ => (0 : ℚ)) (1/2) [⟨0, 0, 0, 0, 0, none⟩] [] =
      [⟨0, 0, 0, 0, 0, none⟩] ∧
    mergedRegions ⟨1, 1/2⟩ (fun _ _ => 0) (fun _ => ⟨[], [], []⟩)
        [⟨0, 0, 0, 0, 0, none⟩] ⟨0⟩ =
      associate (fun _ _ => (0 : ℚ)) (1/2) [⟨0, 0, 0, 0, 0, none⟩] [] :=
  ⟨(c6_identity_law ⟨1, 1/2⟩ (fun _ _ => 0) (fun _ => ⟨[], [], []⟩)
      [⟨0, 0, 0, 0, 0, none⟩] ⟨0⟩ [⟨0, 0, 0, 0, 0, none⟩] (1/2)).1,
    (c6_identity_law ⟨1, 1/2⟩ (fun _ _ => 0) (fun _ => ⟨[], [], []⟩)
      [⟨0, 0, 0, 0, 0, none⟩] ⟨0⟩ [⟨0, 0, 0, 0, 0, none⟩] (1/2)).2
      (by decide)⟩

/-- C7: the QuotaClipper output is a stable initial segment: it equals
the first max_entities elements in order, is bounded by max_entities,
recombines with the dropped tail to the original list, agrees with the
input at every index below the quota, and is exactly what the cycle
feeds to extraction. -/
theorem c7_quota_clipper (m : ℤ) (l : List Region) (cfg : Config)
    (sim : Region → Region → ℚ) (det : Detector) (ex : Extractor)
    (state : List Region) (img : Image) :
    clipRegions m l = l.take m.toNat ∧
    (clipRegions m l).length ≤ m.toNat ∧
    clipRegions m l ++ l.drop m.toNat = l ∧
    (∀ i, i < m.toNat → (clipRegions m l)[i]? = l[i]?) ∧
    (runCycle cfg sim det ex state img).1.entities =
      dispatchExtraction ex img
        (clipRegions cfg.maxEntities (mergedRegions cfg sim det state img)) := by
  refine ⟨rfl, clipRegions_length_le m l, List.take_append_drop _ _, ?_, rfl⟩
  intro i hi
  exact List.getElem?_take_of_lt hi

/-- C7 witness: quota 1 keeps only the first of two regions. -/
theorem c7_quota_clipper_witness :
    clipRegions 1 [⟨0, 0, 0, 0, 0, none⟩, ⟨1, 1, 1, 1, 0, none⟩] =
        [⟨0, 0, 0, 0, 0, none⟩, ⟨1, 1, 1, 1, 0, none⟩].take ((1 : ℤ)).toNat ∧
    (clipRegions 1 [⟨0, 0, 0, 0, 0, none⟩, ⟨1, 1, 1, 1, 0, none⟩])[0]? =
      [⟨(0:ℚ), 0, 0, 0, 0, none⟩, ⟨1, 1, 1, 1, 0, none⟩][0]? :=
  ⟨(c7_quota_clipper 1 [⟨0, 0, 0, 0, 0, none⟩, ⟨1, 1, 1, 1, 0, none⟩]
      ⟨1, 0⟩ (fun _ _ => 0) (fun _ => ⟨[], [], []⟩) (fun _ _ => [])
      [] ⟨0⟩).1,
    (c7_quota_clipper 1 [⟨0, 0, 0, 0, 0, none⟩, ⟨1, 1, 1, 1, 0, none⟩]
      ⟨1, 0⟩ (fun _ _ => 0) (fun _ => ⟨[], [], []⟩) (fun _ _ => [])
      [] ⟨0⟩).2.2.2.1 0 (by decide)⟩

/-- C8: in a cycle whose gate reports sufficient, the detector is
skipped and the detection-only outputs of the assembled result, the
palm rects and palm detections, are empty. -/
theorem c8_skipped_detector_empty_outputs (cfg : Config)
    (sim : Region → Region → ℚ) (det : Detector) (ex : Extractor)
    (state : List Region) (img : Image)
    (h : cfg.maxEntities ≤ (state.length : ℤ)) :
    (runCycle cfg sim det ex state img).1.palmRects = [] ∧
    (runCycle cfg sim det ex state img).1.palmDetections = [] := by
  simp [runCycle, freshDetections_eq_none cfg det state img h]

/-- C8 witness: quota 1, one tracked region, empty detection-only
outputs. -/
theorem c8_skipped_detector_empty_outputs_witness :
    (runCycle ⟨1, 0⟩ (fun _ _ => 0) (fun _ => ⟨[], [], []⟩)
        (fun _ _ => []) [⟨0, 0, 0, 0, 0, none⟩] ⟨0⟩).1.palmRects = [] ∧
    (runCycle ⟨1, 0⟩ (fun _ _ => 0) (fun _ => ⟨[], [], []⟩)
        (fun _ _ => []) [⟨0, 0, 0, 0, 0, none⟩] ⟨0⟩).1.palmDetections =
      [] :=
  c8_skipped_detector_empty_outputs ⟨1, 0⟩ (fun _ _ => 0)
    (fun _ => ⟨[], [], []⟩) (fun _ _ => []) [⟨0, 0, 0, 0, 0, none⟩] ⟨0⟩
    (by decide)

/-- C9: the orchestration is deterministic: two runs over pointwise
identical frame sequences with pointwise identical detector and
extractor collaborators produce identical register traces and
identical assembled outputs at every cycle. -/
theorem c9_determinism (cfg : Config) (sim : Region → Region → ℚ)
    (d1 d2 : Detector) (e1 e2 : Extractor) (f1 f2 : ℕ → Image)
    (hd : ∀ i, d1 i = d2 i) (he : ∀ i rs, e1 i rs = e2 i rs)
    (hf : ∀ n, f1 n = f2 n) :
    ∀ n, stateTrace cfg sim d1 e1 f1 n = stateTrace cfg sim d2 e2 f2 n ∧
      outputAt cfg sim d1 e1 f1 n = outputAt cfg sim d2 e2 f2 n := by
  have hd2 : d1 = d2 := funext hd
  have he2 : e1 = e2 := funext fun i => funext fun rs => he i rs
  have hf2 : f1 = f2 := funext hf
  subst hd2 he2 hf2
  exact fun n => ⟨rfl, rfl⟩

/-- C9 witness: identical trivial collaborators give identical
outputs at cycle 1. -/
theorem c9_determinism_witness :
    stateTrace ⟨1, 0⟩ (fun _ _ => 0) (fun _ => ⟨[], [], []⟩)
        (fun _ _ => []) (fun _ => ⟨0⟩) 1 =
      stateTrace ⟨1, 0⟩ (fun _ _ => 0) (fun _ => ⟨[], [], []⟩)
        (fun _ _ => []) (fun _ => ⟨0⟩) 1 :=
  (c9_determinism ⟨1, 0⟩ (fun _ _ => 0) (fun _ => ⟨[], [], []⟩)
    (fun _ => ⟨[], [], []⟩) (fun _ _ => []) (fun _ _ => [])
    (fun _ => ⟨0⟩) (fun _ => ⟨0⟩) (fun _ => rfl) (fun _ _ => rfl)
    (fun _ => rfl) 1).1

/-- C10: when the node list holds a PreviousLoopbackCalculator node,
the GetConfig post-processing marks exactly the first such node — it
appends the LOOP back-edge input-stream-info entry to it — and leaves
every other node unchanged. -/
theorem c10_back_edge_marked_once (nodes : List Node)
    (h : ∃ n, n ∈ nodes ∧
      n.calculator = kPreviousLoopbackCalculatorName) :
    ∃ i, ∃ hi : i < nodes.length,
      (nodes.get ⟨i, hi⟩).calculator = kPreviousLoopbackCalculatorName ∧
      (∀ j, j < i → ∀ m, nodes[j]? = some m →
        m.calculator ≠ kPreviousLoopbackCalculatorName) ∧
      markLoopBackEdge nodes =
        nodes.set i (markNode (nodes.get ⟨i, hi⟩)) ∧
      (∀ j, j ≠ i → (markLoopBackEdge nodes)[j]? = nodes[j]?) := by
  induction nodes with
  | nil => simp at h
  | cons n ns ih =>
    by_cases hc : n.calculator = kPreviousLoopbackCalculatorName
    · refine ⟨0, Nat.succ_pos _, hc, ?_, ?_, ?_⟩
      · intro j hj
        exact absurd hj (Nat.not_lt_zero j)
      · show markLoopBackEdge (n :: ns) = markNode n :: ns
        rw [markLoopBackEdge, if_pos hc]
      · intro j hj
        cases j with
        | zero => exact absurd rfl hj
        | succ k =>
          rw [markLoopBackEdge, if_pos hc]
          rfl
    · have h2 : ∃ m, m ∈ ns ∧
          m.calculator = kPreviousLoopbackCalculatorName := by
        obtain ⟨m, hm, hcalc⟩ := h
        rcases List.mem_cons.mp hm with hm0 | hm1
        · exact absurd (hm0 ▸ hcalc) hc
        · exact ⟨m, hm1, hcalc⟩
      obtain ⟨i, hi, hget, hfirst, heq, hother⟩ := ih h2
      refine ⟨i + 1, Nat.succ_lt_succ hi, hget, ?_, ?_, ?_⟩
      · intro j hj m hm
        cases j with
        | zero =>
          have hmn : n = m := by
            simpa using hm
          exact hmn ▸ hc
        | succ k =>
          exact hfirst k (Nat.lt_of_succ_lt_succ hj) m (by simpa using hm)
      · show markLoopBackEdge (n :: ns) =
          n :: ns.set i (markNode (ns.get ⟨i, hi⟩))
        rw [markLoopBackEdge, if_neg hc, heq]
      · intro j hj
        cases j with
        | zero =>
          rw [markLoopBackEdge, if_neg hc]
          simp
        | succ k =>
          have hk : k ≠ i := fun hki => hj (by rw [hki])
          rw [markLoopBackEdge, if_neg hc]
          simpa using hother k hk

/-- C10 witness: in a two-node config the second node, the loopback
node, is the one marked. -/
theorem c10_back_edge_marked_once_witness :
    ∃ i, ∃ hi : i <
        (([⟨"ImageCloneCalculator", []⟩,
          ⟨"PreviousLoopbackCalculator", []⟩] : List Node)).length,
      ((([⟨"ImageCloneCalculator", []⟩,
          ⟨"PreviousLoopbackCalculator", []⟩] : List Node)).get
        ⟨i, hi⟩).calculator = kPreviousLoopbackCalculatorName ∧
      (∀ j, j < i → ∀ m,
        (([⟨"ImageCloneCalculator", []⟩,
          ⟨"PreviousLoopbackCalculator", []⟩] : List Node))[j]? = some m →
        m.calculator ≠ kPreviousLoopbackCalculatorName) ∧
      markLoopBackEdge
          ([⟨"ImageCloneCalculator", []⟩,
            ⟨"PreviousLoopbackCalculator", []⟩] : List Node) =
        (([⟨"ImageCloneCalculator", []⟩,
          ⟨"PreviousLoopbackCalculator", []⟩] : List Node)).set i
          (markNode ((([⟨"ImageCloneCalculator", []⟩,
            ⟨"PreviousLoopbackCalculator", []⟩] : List Node)).get
            ⟨i, hi⟩)) ∧
      (∀ j, j ≠ i →
        (markLoopBackEdge
          ([⟨"ImageCloneCalculator", []⟩,
            ⟨"PreviousLoopbackCalculator", []⟩] : List Node))[j]? =
        (([⟨"ImageCloneCalculator", []⟩,
          ⟨"PreviousLoopbackCalculator", []⟩] : List Node))[j]?) :=
  c10_back_edge_marked_once
    [⟨"ImageCloneCalculator", []⟩, ⟨"PreviousLoopbackCalculator", []⟩]
    ⟨⟨"PreviousLoopbackCalculator", []⟩, by simp, rfl⟩

end HandLandmarker
